import Mathlib

/-!
Verification of the breadcrumb-collection subsystem of the sentry-miniapp
repository (src/src/integrations/breadcrumbs.ts, src/src/env.ts and the
alternate duplicate module src/unnamed/part_002), shallowly embedded in Lean.

JavaScript values relevant to the patch primitive `fill` are modelled by an
inductive `Value`: functions carry an identity tag together with the
`__sentry__` marker, the `__sentry_original__` back-reference and the
`__sentry_wrapped__` self-reference flag that `fill` installs on a wrapper.
Objects are modelled by their own-property table (name, descriptor with a
`configurable` bit) plus a prototype-chain table that only the `in`
membership test and plain property reads can see.
-/

/-- A JavaScript value as seen by the patch primitive: a function value with
identity `id`, its `__sentry__` marker and its `__sentry_wrapped__`
self-reference flag, either without or with a `__sentry_original__`
back-reference; or a non-function value. -/
inductive Value where
  | func (id : Nat) (sentry : Bool) (sentryWrappedSelf : Bool)
  | funcWithOriginal (id : Nat) (sentry : Bool) (original : Value) (sentryWrappedSelf : Bool)
  | prim
deriving DecidableEq

/-- An own-property descriptor: the stored value and the `configurable`
attribute, as returned by `Object.getOwnPropertyDescriptor`. -/
structure PropDesc where
  value : Value
  configurable : Bool
deriving DecidableEq

/-- A JavaScript object: its own properties and the properties visible only
through its prototype chain (the latter respond to `in` and to plain reads,
but have no own descriptor). -/
structure Obj where
  own : List (String × PropDesc)
  proto : List (String × Value)
deriving DecidableEq

/-- First own descriptor stored under `name` (`Object.getOwnPropertyDescriptor`). -/
def lookupOwn : List (String × PropDesc) → String → Option PropDesc
  | [], _ => none
  | (k, d) :: rest, n => if k = n then some d else lookupOwn rest n

/-- First prototype-chain value stored under `name`. -/
def lookupProto : List (String × Value) → String → Option Value
  | [], _ => none
  | (k, v) :: rest, n => if k = n then some v else lookupProto rest n

/-- `source[name]`: own property first, then the prototype chain; `none` when
the property is absent (so `name in source` is false). -/
def getProp (o : Obj) (name : String) : Option Value :=
  match lookupOwn o.own name with
  | some d => some d.value
  | none => lookupProto o.proto name

/-- Truthiness of reading `.__sentry__` on a value: set only on a marked
function (reading any property of a non-function non-nullish value yields
`undefined`, which is falsy). -/
def isSentryMarked : Value → Bool
  | .func _ s _ => s
  | .funcWithOriginal _ s _ _ => s
  | .prim => false

/-- Replace the value stored in the first own descriptor under `name`,
keeping every attribute of that descriptor: `Object.defineProperties` with
only `value` given leaves the remaining attributes of an existing property
unchanged. -/
def setOwnValue : List (String × PropDesc) → String → Value → List (String × PropDesc)
  | [], _, _ => []
  | (k, d) :: rest, n, v =>
      if k = n then (k, { d with value := v }) :: rest
      else (k, d) :: setOwnValue rest n v

/-- The wrapper produced by `replacement(original)` after `fill` stamps it:
`__sentry__ = true`, `__sentry_original__ = original`,
`__sentry_wrapped__ = wrapped`. `wrapId` is the identity of the fresh
closure returned by the wrapper factory. -/
def mkWrapped (wrapId : Nat) (original : Value) : Value :=
  .funcWithOriginal wrapId true original true

/-- The Safe Patch Primitive `fill(source, name, replacement)` of
breadcrumbs.ts lines 27-53 (identically duplicated in part_002 lines 6-32).
Returns the updated object together with a flag recording whether the
`catch` block ran (i.e. `logger.warn` was called). The modern-host branch is
taken: `Object.defineProperties` and `Object.getOwnPropertyDescriptor`
exist, so a missing own descriptor makes `desp.configurable` throw a
TypeError and a non-configurable descriptor raises `Error('unable to
config')`; both land in the `catch`, which logs and leaves `source`
untouched. -/
def fill (source : Obj) (name : String) (wrapId : Nat) : Obj × Bool :=
  match getProp source name with
  | none => (source, false)
  | some v =>
    if isSentryMarked v then (source, false)
    else
      match lookupOwn source.own name with
      | none => (source, true)
      | some d =>
        if d.configurable then
          ({ source with own := setOwnValue source.own name (mkWrapped wrapId v) }, false)
        else (source, true)

/-- The object with no properties at all. -/
def emptyObj : Obj := ⟨[], []⟩

theorem lookupOwn_setOwnValue_self (own : List (String × PropDesc)) (name : String)
    (v : Value) (d : PropDesc) (h : lookupOwn own name = some d) :
    lookupOwn (setOwnValue own name v) name = some { d with value := v } := by
  induction own with
  | nil => simp [lookupOwn] at h
  | cons p rest ih =>
    by_cases hk : p.1 = name
    · simp [lookupOwn, setOwnValue, hk] at h ⊢
      simp [h]
    · simp [lookupOwn, setOwnValue, hk] at h ⊢
      exact ih h

theorem lookupOwn_setOwnValue_other (own : List (String × PropDesc)) (name n : String)
    (v : Value) (hne : n ≠ name) :
    lookupOwn (setOwnValue own name v) n = lookupOwn own n := by
  induction own with
  | nil => simp [setOwnValue]
  | cons p rest ih =>
    by_cases hk : p.1 = name
    · simp [lookupOwn, setOwnValue, hk, Ne.symm hne]
    · by_cases hn : p.1 = n
      · simp [lookupOwn, setOwnValue, hk, hn, hne]
      · simp [lookupOwn, setOwnValue, hk, hn, ih]

theorem fill_of_marked (s : Obj) (name : String) (w : Nat) (v : Value)
    (h : getProp s name = some v) (hm : isSentryMarked v = true) :
    fill s name w = (s, false) := by
  unfold fill
  rw [h]
  simp [hm]

/-- C1: on an own, configurable, unmarked function-valued property, the
first `fill` installs the marked wrapper (with `__sentry__` set and
`__sentry_original__` pointing at the original value) without warning, and
a second `fill` on the same (object, name) pair is a no-op returning the
object unchanged, so exactly one wrapper is ever installed and its identity
is preserved. -/
theorem fill_installs_once_and_is_idempotent
    (source : Obj) (name : String) (wrapId wrapId2 : Nat) (d : PropDesc)
    (hown : lookupOwn source.own name = some d)
    (hconf : d.configurable = true)
    (hunmarked : isSentryMarked d.value = false) :
    getProp (fill source name wrapId).1 name = some (mkWrapped wrapId d.value) ∧
    (fill source name wrapId).2 = false ∧
    fill (fill source name wrapId).1 name wrapId2 = ((fill source name wrapId).1, false) := by
  have hget : getProp source name = some d.value := by
    simp [getProp, hown]
  have hfill : fill source name wrapId =
      ({ source with own := setOwnValue source.own name (mkWrapped wrapId d.value) }, false) := by
    unfold fill
    rw [hget]
    simp [hunmarked, hown, hconf]
  have hown1 : lookupOwn (setOwnValue source.own name (mkWrapped wrapId d.value)) name =
      some { d with value := mkWrapped wrapId d.value } :=
    lookupOwn_setOwnValue_self source.own name (mkWrapped wrapId d.value) d hown
  have hget1 : getProp (fill source name wrapId).1 name = some (mkWrapped wrapId d.value) := by
    rw [hfill]
    simp [getProp, hown1]
  refine ⟨hget1, by rw [hfill], ?_⟩
  exact fill_of_marked (fill source name wrapId).1 name wrapId2
    (mkWrapped wrapId d.value) hget1 rfl

/-- Closed witness for C1 at a concrete object whose property "request"
holds an unmarked function with a configurable own descriptor. -/
theorem fill_installs_once_and_is_idempotent_witness :
    getProp (fill ⟨[("request", ⟨.func 7 false false, true⟩)], []⟩ "request" 1).1 "request" =
      some (mkWrapped 1 (.func 7 false false)) ∧
    (fill ⟨[("request", ⟨.func 7 false false, true⟩)], []⟩ "request" 1).2 = false ∧
    fill (fill ⟨[("request", ⟨.func 7 false false, true⟩)], []⟩ "request" 1).1 "request" 2 =
      ((fill ⟨[("request", ⟨.func 7 false false, true⟩)], []⟩ "request" 1).1, false) :=
  fill_installs_once_and_is_idempotent
    ⟨[("request", ⟨.func 7 false false, true⟩)], []⟩ "request" 1 2
    ⟨.func 7 false false, true⟩ (by decide) (by decide) (by decide)

/-- C3 (amended): `fill` never throws to its caller and never touches any
property other than the named one; an absent property (the `in` test fails)
is a silent early return with no warning; when the property is readable but
its own descriptor is missing (inherited-only) or non-configurable, the
install attempt throws internally, is caught, a warning is logged, and the
object is left unchanged. -/
theorem fill_failure_is_contained (source : Obj) (name : String) (wrapId : Nat) :
    (∀ n, n ≠ name → getProp (fill source name wrapId).1 n = getProp source n) ∧
    (getProp source name = none → fill source name wrapId = (source, false)) ∧
    (∀ v, getProp source name = some v → isSentryMarked v = false →
      lookupOwn source.own name = none → fill source name wrapId = (source, true)) ∧
    (∀ v d, getProp source name = some v → isSentryMarked v = false →
      lookupOwn source.own name = some d → d.configurable = false →
      fill source name wrapId = (source, true)) := by
  refine ⟨?_, ?_, ?_, ?_⟩
  · intro n hn
    unfold fill
    cases hg : getProp source name with
    | none => rfl
    | some v =>
      by_cases hm : isSentryMarked v
      · simp [hm]
      · simp only [hm, Bool.false_eq_true, if_false]
        cases ho : lookupOwn source.own name with
        | none => rfl
        | some d =>
          by_cases hc : d.configurable
          · simp only [hc, if_true]
            simp [getProp, lookupOwn_setOwnValue_other source.own name n (mkWrapped wrapId v) hn]
          · simp [hc]
  · intro h
    unfold fill
    rw [h]
  · intro v hg hm ho
    unfold fill
    rw [hg]
    simp [hm, ho]
  · intro v d hg hm ho hc
    unfold fill
    rw [hg]
    simp [hm, ho, hc]

/-- Closed witness for C3 at concrete inputs: an absent property is a silent
no-op, and a non-configurable own function property leaves the object
unchanged with a warning while an unrelated property is unaffected. -/
theorem fill_failure_is_contained_witness :
    fill emptyObj "request" 5 = (emptyObj, false) ∧
    fill ⟨[("request", ⟨.func 2 false false, false⟩)], []⟩ "request" 5 =
      (⟨[("request", ⟨.func 2 false false, false⟩)], []⟩, true) ∧
    getProp (fill ⟨[("request", ⟨.func 2 false false, true⟩)], []⟩ "request" 5).1 "other" =
      getProp ⟨[("request", ⟨.func 2 false false, true⟩)], []⟩ "other" :=
  ⟨(fill_failure_is_contained emptyObj "request" 5).2.1 (by decide),
   (fill_failure_is_contained ⟨[("request", ⟨.func 2 false false, false⟩)], []⟩ "request" 5).2.2.2
     (.func 2 false false) ⟨.func 2 false false, false⟩ (by decide) (by decide) (by decide) (by decide),
   (fill_failure_is_contained ⟨[("request", ⟨.func 2 false false, true⟩)], []⟩ "request" 5).1
     "other" (by decide)⟩

/-- C3 counterexample: the claim says a missing property makes `fill` log a
warning, but on an object with no such property at all `fill` returns
silently with the warning flag false. -/
theorem fill_absent_property_logs_no_warning :
    fill emptyObj "request" 5 = (emptyObj, false) ∧
    (fill emptyObj "request" 5).2 ≠ true := by
  decide

/-- C10: when the named property is visible only through the prototype chain
(`in` succeeds but there is no own descriptor), `fill` installs nothing:
`Object.getOwnPropertyDescriptor` yields `undefined`, reading
`.configurable` on it throws, the exception is caught, a warning is logged,
and the object is returned unchanged. -/
theorem fill_skips_inherited_properties (source : Obj) (name : String) (wrapId : Nat)
    (v : Value)
    (hnoown : lookupOwn source.own name = none)
    (hproto : lookupProto source.proto name = some v)
    (hunmarked : isSentryMarked v = false) :
    fill source name wrapId = (source, true) := by
  have hg : getProp source name = some v := by
    simp [getProp, hnoown, hproto]
  unfold fill
  rw [hg]
  simp [hunmarked, hnoown]

/-- Closed witness for C10: an unmarked inherited function under "log" is
left alone and the warning flag is set. -/
theorem fill_skips_inherited_properties_witness :
    fill ⟨[], [("log", .func 3 false false)]⟩ "log" 9 =
      (⟨[], [("log", .func 3 false false)]⟩, true) :=
  fill_skips_inherited_properties ⟨[], [("log", .func 3 false false)]⟩ "log" 9
    (.func 3 false false) (by decide) (by decide) (by decide)

/-- State of the global page-stack query for env.ts: `getCurrentPages` is
not a function in the global scope, or calling it throws, or it returns the
page stack (each page carrying its `route` name). -/
inductive PageStackState where
  | notFunction
  | throwing
  | stack (routes : List String)
deriving DecidableEq

/-- `getCurrentPage()` of env.ts lines 58-70: reads the last page's route;
when `getCurrentPages` is not a function it warns and returns "unknow",
when anything throws (including indexing past an empty stack) it returns
"unknow" from the catch block. -/
def getCurrentPage : PageStackState → String
  | .notFunction => "unknow"
  | .throwing => "unknow"
  | .stack rs => rs.getLast?.getD "unknow"

/-- `getPrevPage(delta)` of env.ts lines 72-88: a falsy delta defaults to 1,
then the route at index `length - 1 - delta` is read; a negative or
out-of-range index dereferences `undefined` and the catch block yields
"unknow"; the unavailable and throwing states also yield "unknow". -/
def getPrevPage (st : PageStackState) (delta : Nat) : String :=
  match st with
  | .notFunction => "unknow"
  | .throwing => "unknow"
  | .stack rs =>
      let d := if delta = 0 then 1 else delta
      let idx : Int := (rs.length : Int) - 1 - (d : Int)
      if idx < 0 then "unknow"
      else rs.getD idx.toNat "unknow"

/-- C9 counterexample: the sentinel actually returned when the page-stack
query is unavailable is the misspelled "unknow", not "unknown" as the claim
states. -/
theorem pageQueries_sentinel_is_unknow_not_unknown :
    getCurrentPage .notFunction = "unknow" ∧
    getPrevPage .notFunction 1 = "unknow" ∧
    getCurrentPage .notFunction ≠ "unknown" ∧
    getPrevPage .throwing 1 ≠ "unknown" := by
  decide

/-- C9 (amended): whenever `getCurrentPages` is unavailable in the global
scope or throws, both route queries return the sentinel string "unknow"
(sic, as spelled in the source) instead of throwing. -/
theorem pageQueries_fail_soft (st : PageStackState) (delta : Nat)
    (h : st = .notFunction ∨ st = .throwing) :
    getCurrentPage st = "unknow" ∧ getPrevPage st delta = "unknow" := by
  rcases h with h | h <;> subst h <;> exact ⟨rfl, rfl⟩

/-- Closed witness for C9 at the concrete unavailable state with delta 2. -/
theorem pageQueries_fail_soft_witness :
    getCurrentPage .notFunction = "unknow" ∧ getPrevPage .notFunction 2 = "unknow" :=
  pageQueries_fail_soft .notFunction 2 (Or.inl rfl)

/-- First header value stored under `name` in a header mapping. -/
def lookupHeader : List (String × String) → String → Option String
  | [], _ => none
  | (k, v) :: rest, n => if k = n then some v else lookupHeader rest n

/-- The header-filtering helper `fillKeys(obj, keys)` of breadcrumbs.ts
lines 16-25: a missing or empty exclusion list returns the mapping itself;
otherwise a fresh mapping is built keeping exactly the own entries whose
names are not in the exclusion list. -/
def fillKeys (obj : List (String × String)) (keys : List String) : List (String × String) :=
  if keys.isEmpty then obj
  else obj.filter (fun p => decide (p.1 ∉ keys))

theorem lookupHeader_filter (obj : List (String × String)) (keys : List String)
    (name : String) :
    lookupHeader (obj.filter (fun p => decide (p.1 ∉ keys))) name =
      if name ∈ keys then none else lookupHeader obj name := by
  induction obj with
  | nil => simp [lookupHeader]
  | cons p rest ih =>
    obtain ⟨k, v⟩ := p
    by_cases hn : k = name
    · subst hn
      by_cases hk : k ∈ keys
      · simp [List.filter, lookupHeader, hk] at ih ⊢
        exact ih
      · simp [List.filter, lookupHeader, hk]
    · by_cases hk : k ∈ keys
      · simp [List.filter, lookupHeader, hk, hn] at ih ⊢
        exact ih
      · simp [List.filter, lookupHeader, hk, hn] at ih ⊢
        exact ih

/-- C7: `fillKeys` removes exactly the entries whose names are in the
exclusion list (lookup of an excluded name yields nothing, lookup of any
other name is unchanged), an empty exclusion list is a no-op, and on the
spec's concrete example the Authorization entry is dropped while
Content-Type survives. -/
theorem fillKeys_excludes_exactly (obj : List (String × String)) (keys : List String)
    (name : String) :
    lookupHeader (fillKeys obj keys) name =
      (if name ∈ keys then none else lookupHeader obj name) ∧
    fillKeys obj [] = obj ∧
    fillKeys [("Authorization", "x"), ("Content-Type", "json")] ["Authorization"] =
      [("Content-Type", "json")] := by
  refine ⟨?_, rfl, by decide⟩
  by_cases hk : keys.isEmpty
  · have hnil : keys = [] := by
      cases keys with
      | nil => rfl
      | cons a l => simp [List.isEmpty] at hk
    subst hnil
    simp [fillKeys]
  · simp only [fillKeys, hk, if_false]
    exact lookupHeader_filter obj keys name

/-- A JavaScript argument as the console wrapper inspects it: a boolean (the
strict `=== false` test), a string (the unhandled-rejection prefix test), an
Error-like value carrying its display text, or anything else. -/
inductive JsArg where
  | bool (b : Bool)
  | str (s : String)
  | err (msg : String)
  | other
deriving DecidableEq

/-- `String(value)` as used by safeJoin. -/
def jsToString : JsArg → String
  | .bool true => "true"
  | .bool false => "false"
  | .str s => s
  | .err m => m
  | .other => "[object Object]"

/-- `safeJoin(input, delimiter)` from the utils collaborator: stringify each
argument (degrading to a placeholder on failure, which our value model never
needs) and join with the delimiter. -/
def safeJoin (args : List JsArg) (delim : String) : String :=
  String.intercalate delim (args.map jsToString)

/-- `JSON.stringify` of a single argument (Error objects serialize to `{}`). -/
def jsonStringifyArg : JsArg → String
  | .bool true => "true"
  | .bool false => "false"
  | .str s => "\x22" ++ s ++ "\x22"
  | .err _ => "{}"
  | .other => "{}"

/-- `JSON.stringify(args)` for an argument array. -/
def jsonStringify (args : List JsArg) : String :=
  "[" ++ String.intercalate "," (args.map jsonStringifyArg) ++ "]"

/-- `Severity.fromString` of the types collaborator. -/
def severityFromString (s : String) : String :=
  if s = "debug" then "debug"
  else if s = "info" then "info"
  else if s = "warn" ∨ s = "warning" then "warning"
  else if s = "error" then "error"
  else if s = "fatal" then "fatal"
  else if s = "critical" then "critical"
  else "log"

/-- The breadcrumb record built by the console wrapper: category "console",
serialized argument snapshot (`data.extra.arguments`), `data.logger`,
severity and message. -/
structure ConsoleBreadcrumb where
  category : String
  extraArguments : String
  logger : String
  level : String
  message : String
deriving DecidableEq

/-- Lines 112-130 of breadcrumbs.ts: the breadcrumb payload for a console
call, including the `level === 'assert'` special case that rewrites the
message and drops the first argument when the first argument is literally
`false`. -/
def mkConsoleBreadcrumb (level : String) (args : List JsArg) : ConsoleBreadcrumb :=
  let base : ConsoleBreadcrumb :=
    { category := "console"
      extraArguments := jsonStringify args
      logger := level
      level := severityFromString level
      message := safeJoin args " " }
  if level = "assert" ∧ args.head? = some (.bool false) then
    { base with
      message := "Assertion failed: " ++
        (if safeJoin (args.drop 1) " " = "" then "console.assert"
         else safeJoin (args.drop 1) " ")
      extraArguments := jsonStringify (args.drop 1) }
  else base

/-- `isWxUnhandledPromiseError` of env.ts lines 122-127: a string whose
case-insensitive prefix is "Unhandled" or "Uncaught". -/
def isWxUnhandledPromiseError : Option JsArg → Bool
  | some (.str s) => s.toLower.startsWith "unhandled" || s.toLower.startsWith "uncaught"
  | _ => false

/-- `isError` of the utils collaborator: recognizes Error-like values. -/
def isErrorArg : Option JsArg → Bool
  | some (.err _) => true
  | _ => false

/-- An observable action of the console wrapper, in execution order:
emitting the breadcrumb (with its hint), forwarding to the realtime-log
manager method, capturing the second argument as an exception, or invoking
the original console function (`viaFallback` records that the generic
`Function.prototype.apply` path threw and the direct `.apply` path ran;
`thisIsConsole` records the calling context). -/
inductive ConsoleEffect where
  | breadcrumb (b : ConsoleBreadcrumb) (hintInput : List JsArg) (hintLevel : String)
  | realtimeForward (method : String) (args : List JsArg)
  | captureSecondArg
  | callOriginal (viaFallback : Bool) (thisIsConsole : Bool) (args : List JsArg)
deriving DecidableEq

/-- Recognizes the original-invocation effect. -/
def isCallOriginalEffect : ConsoleEffect → Bool
  | .callOriginal _ _ _ => true
  | _ => false

/-- Configuration captured by the closures of `instrumentConsole`:
the breadcrumb level filter, the realtime-log level filter, the
unhandled-error option, presence of the realtime-log manager and which of
its methods exist, whether `Function.prototype.apply` invocation throws,
and whether the original console function is truthy. -/
structure ConsoleConfig where
  consoleFilter : List String
  realtimeFilter : List String
  captureUnhandleError : Bool
  hasRealtimeManager : Bool
  realtimeHasMethod : String → Bool
  genericApplyBroken : Bool
  originalPresent : Bool

/-- The wrapper body installed on `console[level]` by `instrumentConsole`
(breadcrumbs.ts lines 110-161), as the ordered list of its observable
actions for one invocation with `args`. -/
def consoleWrapper (cfg : ConsoleConfig) (level : String) (args : List JsArg) :
    List ConsoleEffect :=
  (if level ∈ cfg.consoleFilter then
    [.breadcrumb (mkConsoleBreadcrumb level args) args level]
   else []) ++
  (if level ∈ cfg.realtimeFilter ∧ cfg.hasRealtimeManager then
    (if cfg.realtimeHasMethod (if level = "log" then "info" else level) then
      [.realtimeForward (if level = "log" then "info" else level) args]
     else [])
   else []) ++
  (if (level = "warn" ∨ level = "error") ∧ cfg.captureUnhandleError = true ∧
      isWxUnhandledPromiseError args.head? = true ∧ isErrorArg (args.drop 1).head? = true then
    [.captureSecondArg]
   else []) ++
  (if cfg.originalPresent then
    [.callOriginal cfg.genericApplyBroken true args]
   else [])

/-- The five console levels wrapped by `instrumentConsole`. -/
def watchFunctions : List String := ["info", "warn", "error", "log", "debug"]

/-- C2: whatever the breadcrumb, realtime-log and unhandled-error
configuration, one invocation of the wrapped console function performs
exactly one invocation of the underlying original function, with the
original arguments and the console object as calling context, as its final
action; the direct-apply fallback is used exactly when the generic
`Function.prototype.apply` mechanism throws. -/
theorem consoleWrapper_always_calls_original (cfg : ConsoleConfig) (level : String)
    (args : List JsArg) (h : cfg.originalPresent = true) :
    (consoleWrapper cfg level args).filter isCallOriginalEffect =
      [.callOriginal cfg.genericApplyBroken true args] ∧
    (consoleWrapper cfg level args).getLast? =
      some (.callOriginal cfg.genericApplyBroken true args) := by
  unfold consoleWrapper
  rw [h]
  split_ifs <;> simp_all [isCallOriginalEffect]

/-- Closed witness for C2: level "error" with two string arguments under a
configuration with every feature enabled and a working apply mechanism. -/
theorem consoleWrapper_always_calls_original_witness :
    (consoleWrapper ⟨["info", "warn", "error", "log", "debug"], ["warn", "error", "info"],
        true, true, fun _ => true, false, true⟩ "error" [.str "a", .str "b"]).filter
        isCallOriginalEffect = [.callOriginal false true [.str "a", .str "b"]] ∧
    (consoleWrapper ⟨["info", "warn", "error", "log", "debug"], ["warn", "error", "info"],
        true, true, fun _ => true, false, true⟩ "error" [.str "a", .str "b"]).getLast? =
      some (.callOriginal false true [.str "a", .str "b"]) :=
  consoleWrapper_always_calls_original
    ⟨["info", "warn", "error", "log", "debug"], ["warn", "error", "info"],
      true, true, fun _ => true, false, true⟩ "error" [.str "a", .str "b"] rfl

/-- C5 counterexample: console level "error" invoked with `[false, "must
hold"]` does NOT produce the assertion message; the emitted breadcrumb
message is the plain space-join "false must hold", because the rewrite is
guarded by `level === 'assert'` and "error" is not "assert". -/
theorem console_error_false_arg_is_not_assertion :
    (mkConsoleBreadcrumb "error" [.bool false, .str "must hold"]).message =
      "false must hold" ∧
    (mkConsoleBreadcrumb "error" [.bool false, .str "must hold"]).message ≠
      "Assertion failed: must hold" ∧
    (mkConsoleBreadcrumb "error" [.bool false, .str "must hold"]).extraArguments =
      jsonStringify [.bool false, .str "must hold"] := by
  refine ⟨rfl, ?_, rfl⟩
  decide

/-- C5 (amended): the assertion rewrite fires only when the level string is
literally "assert", which is never among the five instrumented levels; for
every instrumented level the breadcrumb message is the plain space-join of
all arguments and the serialized snapshot keeps every argument, while a
hypothetical "assert" level with leading literal `false` would produce the
"Assertion failed: " message over the remaining arguments. -/
theorem console_assert_rewrite_unreachable_for_watched_levels (level : String)
    (args : List JsArg) (h : level ∈ watchFunctions) :
    (mkConsoleBreadcrumb level args).message = safeJoin args " " ∧
    (mkConsoleBreadcrumb level args).extraArguments = jsonStringify args ∧
    (mkConsoleBreadcrumb "assert" (.bool false :: args)).message =
      "Assertion failed: " ++
        (if safeJoin args " " = "" then "console.assert" else safeJoin args " ") := by
  have hne : ¬(level = "assert") := by
    intro he
    rw [he] at h
    exact absurd h (by decide)
  refine ⟨?_, ?_, ?_⟩
  · simp [mkConsoleBreadcrumb, hne]
  · simp [mkConsoleBreadcrumb, hne]
  · simp [mkConsoleBreadcrumb, List.head?]

/-- Closed witness for C5 at level "error" with arguments
`[false, "must hold"]`. -/
theorem console_assert_rewrite_unreachable_witness :
    (mkConsoleBreadcrumb "error" [.bool false, .str "must hold"]).message =
      safeJoin [.bool false, .str "must hold"] " " ∧
    (mkConsoleBreadcrumb "error" [.bool false, .str "must hold"]).extraArguments =
      jsonStringify [.bool false, .str "must hold"] ∧
    (mkConsoleBreadcrumb "assert" (.bool false :: [.bool false, .str "must hold"])).message =
      "Assertion failed: " ++
        (if safeJoin [.bool false, .str "must hold"] " " = "" then "console.assert"
         else safeJoin [.bool false, .str "must hold"] " ") :=
  console_assert_rewrite_unreachable_for_watched_levels "error"
    [.bool false, .str "must hold"] (by decide)

/-- A request body (`requestOptions.data`) as `JSON.parse` sees it: either a
serialized event envelope carrying optional `event_id` and `level` fields,
or text that fails to parse. -/
inductive Body where
  | json (eventId : Option String) (level : Option String)
  | malformed
deriving DecidableEq

/-- `getEventDescription` of the utils collaborator, restricted to the
envelope shape our model carries (no message, no exception list): the event
id when truthy, otherwise the "<unknown>" placeholder. -/
def getEventDescription (eventId : Option String) : String :=
  match eventId with
  | some e => if e = "" then "<unknown>" else e
  | none => "<unknown>"

/-- An observable action of the request wrapper before it delegates:
emitting the "sentry"-category breadcrumb or logging the parse error. -/
inductive ReqEffect where
  | sentryBreadcrumb (eventId : Option String) (level : String) (message : String)
  | logError (msg : String)
deriving DecidableEq

/-- `addSentryBreadcrumb(serializedData)` of breadcrumbs.ts lines 350-367:
parse the body; on success emit a "sentry" breadcrumb with the event id and
`event.level || Severity.fromString('error')`; on parse failure log an
error and emit nothing. -/
def addSentryBreadcrumb : Body → List ReqEffect
  | .json eid lvl =>
      [.sentryBreadcrumb eid
        (match lvl with
         | some l => if l = "" then "error" else l
         | none => "error")
        (getEventDescription eid)]
  | .malformed => [.logError "Error while adding sentry type breadcrumb"]

/-- ASCII uppercasing of one character, as `toUpperCase` acts on the method
strings that occur here. -/
def asciiUpperChar (c : Char) : Char :=
  if 'a' ≤ c ∧ c ≤ 'z' then Char.ofNat (c.toNat - 32) else c

/-- `method.toUpperCase()`. -/
def jsToUpper (s : String) : String := String.mk (s.data.map asciiUpperChar)

/-- Whether `needle` is a prefix of `haystack` (character lists). -/
def charsIsPrefixOf : List Char → List Char → Bool
  | [], _ => true
  | _ :: _, [] => false
  | a :: as, b :: bs => (a = b) && charsIsPrefixOf as bs

/-- Whether `needle` occurs contiguously inside the list. -/
def charsContainsSeq (needle : List Char) : List Char → Bool
  | [] => charsIsPrefixOf needle []
  | c :: cs => charsIsPrefixOf needle (c :: cs) || charsContainsSeq needle cs

/-- `isMatchingPattern(value, pattern)` of the utils collaborator for a
string pattern: substring containment (`value.indexOf(pattern) !== -1`). -/
def isMatchingPattern (value pattern : String) : Bool :=
  charsContainsSeq pattern.data value.data

/-- What the telemetry client exposes to the request wrapper: whether
`getCurrentHub().getClient().getDsn()` yields a DSN, and the delivery
endpoint `new API(dsn).getStoreEndpoint()` derived from it. -/
structure RequestEnv where
  dsnConfigured : Bool
  storeEndpoint : Option String

/-- The options object handed to the wrapped `request` primitive. -/
structure RequestOptions where
  method : Option String
  url : String
  header : List (String × String)
  dataType : Option String
  data : Option Body
deriving DecidableEq

/-- The pending breadcrumb-data record `fetchData` built for an ordinary
call (breadcrumbs.ts lines 217-224). -/
structure FetchSnapshot where
  method : String
  url : String
  header : List (String × String)
  dataType : Option String
  statusCode : Nat
  requestData : Option Body
deriving DecidableEq

/-- How the options object reaches the original primitive: untouched (the
telemetry-endpoint branch) or with success/fail replaced by wrappers closing
over the given snapshot (the ordinary branch). -/
inductive PassedCallbacks where
  | unchanged
  | wrapped (snapshot : FetchSnapshot)
deriving DecidableEq

/-- The wrapper installed on `ctx.request` by `instrumentRequest`
(breadcrumbs.ts lines 201-265), up to the point where it delegates to the
original primitive: the synchronous effects it emits and the state of the
callbacks on the options object it passes along. `filterHeaders` is
`this._options.request?.filterHeaders || []`. -/
def requestWrapper (env : RequestEnv) (filterHeaders : List String)
    (opts : RequestOptions) : List ReqEffect × PassedCallbacks :=
  let method := (opts.method.map jsToUpper).getD "GET"
  let matched := env.dsnConfigured &&
    (match env.storeEndpoint with
     | some fu => (fu != "") && isMatchingPattern opts.url fu
     | none => false)
  if matched then
    (if method = "POST" then
      match opts.data with
      | some b => (addSentryBreadcrumb b, .unchanged)
      | none => ([], .unchanged)
     else ([], .unchanged))
  else
    ([], .wrapped
      { method := method
        url := opts.url
        header := fillKeys opts.header filterHeaders
        dataType := opts.dataType
        statusCode := 0
        requestData := opts.data })

/-- C4: on a call whose URL matches the configured delivery endpoint with
method POST and a present body, the wrapper emits exactly one
"sentry"-category breadcrumb carrying the decoded event id and level,
emits no "request"-category breadcrumb (the callbacks are left unchanged,
so none can be emitted later either), and passes the options through
untouched; when the body fails to parse it logs an error, emits no
breadcrumb, and the call still goes through untouched. -/
theorem requestWrapper_own_endpoint_emits_sentry_breadcrumb
    (env : RequestEnv) (filterHeaders : List String) (opts : RequestOptions)
    (fu : String)
    (hdsn : env.dsnConfigured = true)
    (hep : env.storeEndpoint = some fu)
    (hfu : fu ≠ "")
    (hmatch : isMatchingPattern opts.url fu = true)
    (hmethod : (opts.method.map jsToUpper).getD "GET" = "POST") :
    (opts.data = some (.json (some "X") (some "error")) →
      requestWrapper env filterHeaders opts =
        ([.sentryBreadcrumb (some "X") "error" (getEventDescription (some "X"))],
          .unchanged)) ∧
    (opts.data = some .malformed →
      requestWrapper env filterHeaders opts =
        ([.logError "Error while adding sentry type breadcrumb"], .unchanged)) := by
  constructor <;> intro hd <;>
    simp [requestWrapper, hdsn, hep, hfu, hmatch, hmethod, hd, addSentryBreadcrumb]

/-- Closed witness for C4: a POST to a URL containing the configured store
endpoint, with a well-formed body decoding to event id "X" at level
"error". -/
theorem requestWrapper_own_endpoint_witness :
    requestWrapper ⟨true, some "https://o1.ingest.sentry.io/api/1/store/"⟩ []
      ⟨some "post", "https://o1.ingest.sentry.io/api/1/store/?sentry_key=k",
        [], none, some (.json (some "X") (some "error"))⟩ =
      ([.sentryBreadcrumb (some "X") "error" (getEventDescription (some "X"))],
        .unchanged) :=
  (requestWrapper_own_endpoint_emits_sentry_breadcrumb
    ⟨true, some "https://o1.ingest.sentry.io/api/1/store/"⟩ []
    ⟨some "post", "https://o1.ingest.sentry.io/api/1/store/?sentry_key=k",
      [], none, some (.json (some "X") (some "error"))⟩
    "https://o1.ingest.sentry.io/api/1/store/"
    rfl rfl (by decide) (by decide) (by decide)).1 rfl

/-- The response object handed to the success callback: the status code,
the response data (a string, something else, or absent) and the response
headers. -/
inductive ResData where
  | strData (s : String)
  | nonString
  | absent
deriving DecidableEq

structure SuccessRes where
  statusCode : Nat
  data : ResData
  header : List (String × String)
deriving DecidableEq

/-- The response snapshot embedded in the "request" breadcrumb. -/
structure RespSnapshot where
  header : List (String × String)
  data : Option String
deriving DecidableEq

/-- The breadcrumb emitted by the wrapped callbacks: category, wire type,
optional severity, the request snapshot spread into `data`, and the
response snapshot (success only). -/
structure RequestBreadcrumb where
  category : String
  type : String
  level : Option String
  snapshot : FetchSnapshot
  response : Option RespSnapshot
deriving DecidableEq

/-- Line 231 of breadcrumbs.ts: a string body longer than 128 characters is
truncated to its first 128 characters plus an ellipsis marker; a
non-string or missing body becomes null. -/
def truncateResponseData : ResData → Option String
  | .strData s => some (if s.length > 128 then s.take 128 ++ "..." else s)
  | .nonString => none
  | .absent => none

/-- Outcome of one invocation of the wrapped success callback
(breadcrumbs.ts lines 229-248): the emitted breadcrumb and whether the
caller's original success callback is then invoked with the unmodified
response object. -/
structure SuccessOutcome where
  breadcrumb : RequestBreadcrumb
  invokesOriginalSuccessWithRes : Bool
deriving DecidableEq

/-- The wrapped success callback: records the real status code into the
snapshot, truncates the response body, emits the "request"/"http"
breadcrumb with both snapshots, then calls the original success callback
with the unmodified response when one was supplied. -/
def successWrapper (filterHeaders : List String) (fetchData : FetchSnapshot)
    (originSuccessPresent : Bool) (res : SuccessRes) : SuccessOutcome :=
  { breadcrumb :=
      { category := "request"
        type := "http"
        level := none
        snapshot := { fetchData with statusCode := res.statusCode }
        response := some
          { header := fillKeys res.header filterHeaders
            data := truncateResponseData res.data } }
    invokesOriginalSuccessWithRes := originSuccessPresent }

/-- C8: for a success response whose data is a string longer than 128
characters, the wrapped success callback emits a "request"-category,
"http"-typed breadcrumb whose response data is the first 128 characters
followed by "...", records the real status code in the request snapshot,
and still invokes the caller's original success callback with the
unmodified response. -/
theorem successWrapper_truncates_and_preserves (filterHeaders : List String)
    (fetchData : FetchSnapshot) (res : SuccessRes) (s : String)
    (hdata : res.data = .strData s) (hlen : 128 < s.length) :
    (successWrapper filterHeaders fetchData true res).breadcrumb.response =
      some { header := fillKeys res.header filterHeaders, data := some (s.take 128 ++ "...") } ∧
    (successWrapper filterHeaders fetchData true res).breadcrumb.snapshot.statusCode =
      res.statusCode ∧
    (successWrapper filterHeaders fetchData true res).breadcrumb.category = "request" ∧
    (successWrapper filterHeaders fetchData true res).breadcrumb.type = "http" ∧
    (successWrapper filterHeaders fetchData true res).invokesOriginalSuccessWithRes = true := by
  refine ⟨?_, rfl, rfl, rfl, rfl⟩
  simp [successWrapper, truncateResponseData, hdata, hlen]

set_option maxRecDepth 4000 in
/-- Closed witness for C8: a 130-character response body with status 200. -/
theorem successWrapper_truncates_witness :
    (successWrapper [] ⟨"GET", "https://api.example/x", [], none, 0, none⟩ true
        ⟨200, .strData (String.mk (List.replicate 130 'a')), []⟩).breadcrumb.response =
      some { header := fillKeys [] []
             data := some ((String.mk (List.replicate 130 'a')).take 128 ++ "...") } ∧
    (successWrapper [] ⟨"GET", "https://api.example/x", [], none, 0, none⟩ true
        ⟨200, .strData (String.mk (List.replicate 130 'a')), []⟩).breadcrumb.snapshot.statusCode =
      200 ∧
    (successWrapper [] ⟨"GET", "https://api.example/x", [], none, 0, none⟩ true
        ⟨200, .strData (String.mk (List.replicate 130 'a')), []⟩).breadcrumb.category =
      "request" ∧
    (successWrapper [] ⟨"GET", "https://api.example/x", [], none, 0, none⟩ true
        ⟨200, .strData (String.mk (List.replicate 130 'a')), []⟩).breadcrumb.type = "http" ∧
    (successWrapper [] ⟨"GET", "https://api.example/x", [], none, 0, none⟩ true
        ⟨200, .strData (String.mk (List.replicate 130 'a')), []⟩).invokesOriginalSuccessWithRes =
      true :=
  successWrapper_truncates_and_preserves [] ⟨"GET", "https://api.example/x", [], none, 0, none⟩
    ⟨200, .strData (String.mk (List.replicate 130 'a')), []⟩
    (String.mk (List.replicate 130 'a')) rfl (by decide)

/-- A configuration value as JavaScript sees it: `undefined`, a boolean, or
a string list (array values are truthy even when empty). -/
inductive OptVal where
  | undef
  | boolean (b : Bool)
  | strList (l : List String)
deriving DecidableEq

/-- JavaScript truthiness of a configuration value. -/
def truthy : OptVal → Bool
  | .undef => false
  | .boolean b => b
  | .strList _ => true

/-- The options object passed to the Breadcrumbs constructor: for each
field, `none` means the key is absent from the object (so the spread
`{...options}` does not override the default), `some v` means the key is
present with value `v`. -/
structure OptionsArg where
  console : Option OptVal
  request : Option OptVal
  navigation : Option OptVal
  api : Option OptVal
  lifecycle : Option OptVal
  unhandleError : Option OptVal
  realtimeLog : Option OptVal
deriving DecidableEq

/-- The merged configuration snapshot `this._options`. -/
structure MergedOptions where
  console : OptVal
  request : OptVal
  navigation : OptVal
  api : OptVal
  lifecycle : OptVal
  unhandleError : OptVal
  realtimeLog : OptVal
deriving DecidableEq

/-- The constructor merge of the primary module (breadcrumbs.ts lines
81-89): `{console: true, navigation: true, api: true, lifecycle: true,
unhandleError: true, realtimeLog: true, ...options}` — note that the
defaults object carries NO `request` key, so an absent `request` option
stays `undefined` in the merged snapshot. -/
def mergeMain (o : OptionsArg) : MergedOptions :=
  { console := o.console.getD (.boolean true)
    request := o.request.getD .undef
    navigation := o.navigation.getD (.boolean true)
    api := o.api.getD (.boolean true)
    lifecycle := o.lifecycle.getD (.boolean true)
    unhandleError := o.unhandleError.getD (.boolean true)
    realtimeLog := o.realtimeLog.getD (.boolean true) }

/-- The constructor merge of the alternate duplicate module (part_002 lines
59-68), whose defaults object does include `request: true`. -/
def mergeAlt (o : OptionsArg) : MergedOptions :=
  { mergeMain o with request := o.request.getD (.boolean true) }

/-- `setupOnce` (breadcrumbs.ts lines 330-346): the instrumentation modules
invoked, in source order — console (also forced on when realtime-log
mirroring is enabled and a realtime-log manager exists), navigation,
request, generic API, lifecycle. -/
def setupOnceModules (m : MergedOptions) (hasRealtimeManager : Bool) : List String :=
  (if truthy m.console || (truthy m.realtimeLog && hasRealtimeManager) then ["console"]
   else []) ++
  (if truthy m.navigation then ["navigation"] else []) ++
  (if truthy m.request then ["request"] else []) ++
  (if truthy m.api then ["api"] else []) ++
  (if truthy m.lifecycle then ["lifecycle"] else [])

/-- The empty options object (no keys). -/
def emptyOptions : OptionsArg := ⟨none, none, none, none, none, none, none⟩

/-- C6 counterexample: with no explicit options, the primary module's merged
configuration leaves `request` undefined (falsy), so `setupOnce` skips the
network-request instrumentation — `request` does NOT default to enabled
there, while the alternate duplicate module does enable it by default. -/
theorem mergeMain_request_not_enabled_by_default :
    truthy (mergeMain emptyOptions).request = false ∧
    setupOnceModules (mergeMain emptyOptions) true =
      ["console", "navigation", "api", "lifecycle"] ∧
    setupOnceModules (mergeAlt emptyOptions) true =
      ["console", "navigation", "request", "api", "lifecycle"] := by
  decide

/-- C6 (amended): the primary constructor defaults console, navigation,
api, lifecycle, unhandleError and realtimeLog to enabled but leaves
`request` undefined (only the alternate duplicate module defaults it to
enabled); explicit options override the defaults; and `setupOnce` invokes
the enabled modules in the fixed order console, navigation, request, api,
lifecycle (every module list is a sublist of that full ordered list). -/
theorem setupOnce_defaults_and_fixed_order (o : OptionsArg) (m : MergedOptions)
    (hasRealtimeManager : Bool) :
    mergeMain emptyOptions =
      ⟨.boolean true, .undef, .boolean true, .boolean true, .boolean true,
        .boolean true, .boolean true⟩ ∧
    (∀ v, o.request = some v → (mergeMain o).request = v) ∧
    (∀ v, o.console = some v → (mergeMain o).console = v) ∧
    (mergeAlt emptyOptions).request = .boolean true ∧
    (setupOnceModules m hasRealtimeManager).Sublist
      ["console", "navigation", "request", "api", "lifecycle"] := by
  refine ⟨by decide, ?_, ?_, by decide, ?_⟩
  · intro v hv
    simp [mergeMain, hv]
  · intro v hv
    simp [mergeMain, hv]
  · unfold setupOnceModules
    split_ifs <;> decide

/-- Closed witness for C6: an explicit `request: false` key overrides the
(missing) default, and the module list of the default configuration is in
the fixed order. -/
theorem setupOnce_defaults_and_fixed_order_witness :
    (mergeMain ⟨none, some (.boolean false), none, none, none, none, none⟩).request =
      .boolean false ∧
    (setupOnceModules (mergeMain emptyOptions) true).Sublist
      ["console", "navigation", "request", "api", "lifecycle"] :=
  ⟨(setupOnce_defaults_and_fixed_order
      ⟨none, some (.boolean false), none, none, none, none, none⟩
      (mergeMain emptyOptions) true).2.1 (.boolean false) rfl,
   (setupOnce_defaults_and_fixed_order emptyOptions
      (mergeMain emptyOptions) true).2.2.2.2⟩
